import Mathlib

/-
Verification of the lab_gear inventory service and its Terraform providers.

This file gives a shallow embedding of the Go sources:
- internal/models/models.go  (Machine, ValidKinds)
- internal/db/db.go          (SQLite-backed record store, modelled as a list)
- internal/handlers/handlers.go (HTTP handlers as pure state transformers)
- internal/middleware/auth.go (both observed revisions of the bearer gate)
- terraform-provider-lab_gear/internal/apiclient/client.go
- terraform-provider-lab/internal/labapi/client.go
- terraform-provider-lab/internal/resources/machine.go (MachineResource.Read)
- the lab_gear provider machine resource (machineResource.Read)

Modelling conventions:
- Machine timestamps are abstract instants (Nat). DB.Create / DB.Update store
  RFC3339-formatted timestamps and scanRow parses them back; at the modelled
  granularity format-then-parse is the identity, so the store keeps the Nat.
- storage_tb (Go float64) is modelled as Rat; the code never computes with it,
  it only stores and compares, which Rat models exactly.
- An HTTP request body is modelled by its total byte length, the number of
  bytes json.Decoder.Decode must consume before the first JSON value is
  complete (the decoder stops there and never reads the rest of the body),
  and the Machine the decode yields (none when decoding fails). The
  MaxBytesReader guard therefore fires exactly when the decoder's required
  consumption — capped by the body length — exceeds the 64*1024-byte limit;
  an oversized body whose first JSON value completes within the limit
  decodes normally. Consumption is modelled at byte precision (the real
  decoder reads in chunks and can overshoot a value end by part of a chunk).
- The SQLite store is a list of rows; INSERT appends, UPDATE maps the SET
  clause onto matching rows, DELETE filters, and RowsAffected is the count of
  matching rows. Infrastructure I/O failures (broken connection etc.) are not
  modelled; every branch of the handlers that is reachable without such a
  failure is kept.
-/

/-- Machine mirrors internal/models/models.go: the sole entity of the store. -/
structure Machine where
  id : String
  name : String
  kind : String
  make : String
  model : String
  cpu : String
  ram_gb : Int
  storage_tb : Rat
  location : String
  serial : String
  notes : String
  created_at : Nat
  updated_at : Nat
deriving DecidableEq, Repr

/-- ValidKinds mirrors the allowed-kind map in internal/models/models.go. -/
def validKinds (k : String) : Bool :=
  k == "proxmox" || k == "nas" || k == "sbc" || k == "bare_metal" ||
    k == "workstation" || k == "laptop"

/-- The machines table of internal/db/db.go, as the list of its rows. -/
abbrev Store := List Machine

/-- Errors surfaced by the record store: sql.ErrNoRows, or the primary-key
uniqueness violation SQLite raises on a duplicate INSERT. -/
inductive DBError where
  | noRows
  | uniqueViolation
deriving DecidableEq, Repr

/-- DB.Create (db.go): INSERT a row; the PRIMARY KEY constraint on id makes a
duplicate identifier fail. -/
def dbCreate (s : Store) (m : Machine) : Except DBError Store :=
  if s.any (fun x => x.id == m.id) then .error .uniqueViolation
  else .ok (s ++ [m])

/-- DB.GetByID (db.go): SELECT ... WHERE id = ?; sql.ErrNoRows when absent. -/
def dbGetByID (s : Store) (id : String) : Except DBError Machine :=
  match s.find? (fun x => x.id == id) with
  | none => .error .noRows
  | some m => .ok m

/-- DB.List (db.go): SELECT with an optional kind filter. The Go slice stays
nil when no row is appended; none models that nil slice. -/
def dbList (s : Store) (kind : String) : Option (List Machine) :=
  let rows := if kind != "" then s.filter (fun x => x.kind == kind) else s
  if rows.isEmpty then none else some rows

/-- The SET clause of DB.Update (db.go): every mutable field and updated_at
are taken from the incoming machine; id and created_at of the row are not in
the SET list and keep their stored values. -/
def setMutable (m x : Machine) : Machine :=
  { x with
    name := m.name, kind := m.kind, make := m.make, model := m.model,
    cpu := m.cpu, ram_gb := m.ram_gb, storage_tb := m.storage_tb,
    location := m.location, serial := m.serial, notes := m.notes,
    updated_at := m.updated_at }

/-- DB.Update (db.go): UPDATE ... WHERE id = ?; sql.ErrNoRows when
RowsAffected is zero. -/
def dbUpdate (s : Store) (m : Machine) : Except DBError Store :=
  if s.countP (fun x => x.id == m.id) == 0 then .error .noRows
  else .ok (s.map fun x => if x.id == m.id then setMutable m x else x)

/-- DB.Delete (db.go): DELETE ... WHERE id = ?; sql.ErrNoRows when
RowsAffected is zero. -/
def dbDelete (s : Store) (id : String) : Except DBError Store :=
  if s.countP (fun x => x.id == id) == 0 then .error .noRows
  else .ok (s.filter fun x => x.id != id)

/-- Body payload written by a handler response. -/
inductive RespBody where
  | errMsg (msg : String)
  | record (m : Machine)
  | records (l : List Machine)
  | empty
deriving DecidableEq, Repr

/-- An HTTP response of the inventory API: a status code and a JSON body. -/
structure Response where
  status : Nat
  body : RespBody
deriving DecidableEq, Repr

/-- A request body as the handlers observe it: its total size in bytes, the
number of bytes json.Decoder.Decode must consume before the first JSON value
is complete or scanning definitively fails (the decoder never reads past
that point), and the Machine the decode yields (none when decoding fails). -/
structure ReqBody where
  byteLen : Nat
  valueLen : Nat
  json : Option Machine
deriving DecidableEq, Repr

/-- Outcome of decoding a request body behind http.MaxBytesReader with the
64*1024-byte limit used by CreateMachine and UpdateMachine. -/
inductive DecodeResult where
  | tooLarge
  | badJSON
  | ok (m : Machine)
deriving DecidableEq, Repr

/-- The MaxBytesReader-plus-json.Decoder step of handlers.go: the decoder
consumes bytes only until the first JSON value completes (capped by the body
length when the value never completes), so http.MaxBytesError fires exactly
when that consumption exceeds 64*1024 bytes; otherwise the JSON decode
result is returned, whatever the total body length. -/
def decodeMachineBody (r : ReqBody) : DecodeResult :=
  if min r.valueLen r.byteLen > 64 * 1024 then .tooLarge
  else
    match r.json with
    | none => .badJSON
    | some m => .ok m

/-- The required-field check shared verbatim by CreateMachine and
UpdateMachine (handlers.go): name, kind, make and model must be non-empty. -/
def requiredMissing (m : Machine) : Bool :=
  m.name == "" || m.kind == "" || m.make == "" || m.model == ""

/-- The hex digit used by uuid.UUID.String (lowercase). -/
def hexChar (n : Nat) : Char :=
  if n < 10 then Char.ofNat (48 + n) else Char.ofNat (87 + n)

/-- Fixed-width big-endian hex rendering of a natural number. -/
def hexDigits : Nat → Nat → List Char
  | 0, _ => []
  | k + 1, n => hexDigits k (n / 16) ++ [hexChar (n % 16)]

/-- uuid.New().String() (handlers.go): the 128-bit value rendered as the
canonical 8-4-4-4-12 dashed hex form, 36 characters long. -/
def uuidString (n : Nat) : String :=
  let h := hexDigits 32 (n % 2 ^ 128)
  String.mk (h.take 8 ++ [Char.ofNat 45] ++ (h.drop 8).take 4 ++ [Char.ofNat 45]
    ++ (h.drop 12).take 4 ++ [Char.ofNat 45] ++ (h.drop 16).take 4
    ++ [Char.ofNat 45] ++ h.drop 20)

/-- Handler.CreateMachine (handlers.go): decode and size-bound the body,
validate required fields and kind, mint id and both timestamps, INSERT and
echo the stored record with 201. now is time.Now().UTC(); entropy feeds
uuid.New(). -/
def createMachine (s : Store) (now : Nat) (entropy : Nat) (r : ReqBody) :
    Store × Response :=
  match decodeMachineBody r with
  | .tooLarge => (s, ⟨413, .errMsg "request body too large"⟩)
  | .badJSON => (s, ⟨400, .errMsg "invalid JSON"⟩)
  | .ok req =>
    if requiredMissing req then
      (s, ⟨400, .errMsg "name, kind, make, and model are required"⟩)
    else if !validKinds req.kind then
      (s, ⟨400, .errMsg "invalid kind"⟩)
    else
      let m := { req with
        id := uuidString entropy, created_at := now, updated_at := now }
      match dbCreate s m with
      | .error _ => (s, ⟨500, .errMsg "failed to create machine"⟩)
      | .ok s2 => (s2, ⟨201, .record m⟩)

/-- Handler.ListMachines (handlers.go): reject a non-empty invalid kind
filter, otherwise list and replace a nil slice by an empty one. -/
def listMachines (s : Store) (kindParam : String) : Store × Response :=
  if kindParam != "" && !validKinds kindParam then
    (s, ⟨400, .errMsg "invalid kind"⟩)
  else
    (s, ⟨200, .records ((dbList s kindParam).getD [])⟩)

/-- Handler.GetMachine (handlers.go): 404 on sql.ErrNoRows, else the row. -/
def getMachine (s : Store) (id : String) : Store × Response :=
  match dbGetByID s id with
  | .error .noRows => (s, ⟨404, .errMsg "machine not found"⟩)
  | .error _ => (s, ⟨500, .errMsg "failed to get machine"⟩)
  | .ok m => (s, ⟨200, .record m⟩)

/-- Handler.UpdateMachine (handlers.go): confirm the target exists (404
first), then decode and size-bound the body, validate with the same rules as
Create, carry id and created_at over from the existing row, refresh
updated_at to now, UPDATE, and echo the stored record with 200. -/
def updateMachine (s : Store) (id : String) (now : Nat) (r : ReqBody) :
    Store × Response :=
  match dbGetByID s id with
  | .error .noRows => (s, ⟨404, .errMsg "machine not found"⟩)
  | .error _ => (s, ⟨500, .errMsg "failed to get machine"⟩)
  | .ok existing =>
    match decodeMachineBody r with
    | .tooLarge => (s, ⟨413, .errMsg "request body too large"⟩)
    | .badJSON => (s, ⟨400, .errMsg "invalid JSON"⟩)
    | .ok req =>
      if requiredMissing req then
        (s, ⟨400, .errMsg "name, kind, make, and model are required"⟩)
      else if !validKinds req.kind then
        (s, ⟨400, .errMsg "invalid kind"⟩)
      else
        let m := { req with
          id := id, created_at := existing.created_at, updated_at := now }
        match dbUpdate s m with
        | .error _ => (s, ⟨500, .errMsg "failed to update machine"⟩)
        | .ok s2 => (s2, ⟨200, .record m⟩)

/-- Handler.DeleteMachine (handlers.go): 404 on sql.ErrNoRows, 204 with no
body on success. -/
def deleteMachine (s : Store) (id : String) : Store × Response :=
  match dbDelete s id with
  | .error .noRows => (s, ⟨404, .errMsg "machine not found"⟩)
  | .error _ => (s, ⟨500, .errMsg "failed to delete machine"⟩)
  | .ok s2 => (s2, ⟨204, .empty⟩)

/-- The unauthorized response body constant of internal/middleware/auth.go. -/
def unauthorizedBody : String := "\x7b\"error\":\"unauthorized\"\x7d\n"

/-- strings.TrimPrefix of the literal "Bearer " as used by Auth: drop the
seven characters when they match, otherwise return the header unchanged. -/
def trimBearer (s : String) : String :=
  if s.take 7 == "Bearer " then s.drop 7 else s

/-- The pass condition of the first observed revision of Auth (auth.go):
strings.HasPrefix(h, "Bearer ") and the trimmed credential equals the
configured token. -/
def authOkV1 (token hdr : String) : Bool :=
  (hdr.take 7 == "Bearer ") && (trimBearer hdr == token)

/-- subtle.ConstantTimeCompare: 1 exactly when the two byte strings are
equal; its timing behaviour is outside this embedding. -/
def constantTimeCompare (a b : String) : Nat :=
  if a == b then 1 else 0

/-- The pass condition of the second observed revision of Auth (auth.go):
the same predicate with the equality test routed through
subtle.ConstantTimeCompare. -/
def authOkV2 (token hdr : String) : Bool :=
  (hdr.take 7 == "Bearer ") && (constantTimeCompare (trimBearer hdr) token == 1)

/-- What the Auth middleware hands back: either the uniform 401 rejection
(with its body), or the wrapped handler's response. -/
inductive GateResult where
  | rejected (status : Nat) (body : String)
  | passed (resp : Response)
deriving DecidableEq, Repr

/-- Auth (auth.go, first revision) wrapping a store-mutating handler: on a
failed check the wrapped handler is never invoked and the store is
untouched. -/
def authGateV1 (token hdr : String) (next : Store → Store × Response)
    (s : Store) : Store × GateResult :=
  if authOkV1 token hdr then
    let r := next s
    (r.1, .passed r.2)
  else
    (s, .rejected 401 unauthorizedBody)

/-- Auth (auth.go, second revision, constant-time comparison) wrapping a
store-mutating handler. -/
def authGateV2 (token hdr : String) (next : Store → Store × Response)
    (s : Store) : Store × GateResult :=
  if authOkV2 token hdr then
    let r := next s
    (r.1, .passed r.2)
  else
    (s, .rejected 401 unauthorizedBody)

/-- Machine as the lab_gear provider's API client declares it
(terraform-provider-lab_gear/internal/apiclient/client.go): plain wire
fields, no timestamps. -/
structure ApiMachine where
  id : String
  name : String
  kind : String
  make : String
  model : String
  cpu : String
  ram_gb : Int
  storage_tb : Rat
  location : String
  serial : String
  notes : String
deriving DecidableEq, Repr

/-- Machine as the lab provider's client declares it
(terraform-provider-lab/internal/labapi/client.go): optional fields are
pointers, timestamps travel as strings. -/
structure LabMachine where
  id : String
  name : String
  kind : String
  make : String
  model : String
  cpu : Option String
  ram_gb : Option Int
  storage_tb : Option Rat
  location : Option String
  serial : Option String
  notes : Option String
  created_at : String
  updated_at : String
deriving DecidableEq, Repr

/-- The zero value of labapi.Machine, what a decode into a fresh out value
leaves when the payload is empty. -/
def LabMachine.zero : LabMachine :=
  ⟨"", "", "", "", "", none, none, none, none, none, none, "", ""⟩

/-- An HTTP response as the remote clients observe it: status code and raw
body bytes. -/
structure HTTPResp where
  status : Nat
  body : String
deriving DecidableEq, Repr

/-- Errors the two remote clients produce. unexpectedStatus is the
fmt.Errorf of the apiclient (it formats only the status code into the
message); apiError is labapi.APIError carrying status code and raw body;
decodeError stands for a json decode failure. -/
inductive ClientError where
  | unexpectedStatus (status : Nat)
  | apiError (statusCode : Nat) (body : String)
  | decodeError
deriving DecidableEq, Repr

/-- apiclient.Client.GetMachine (client.go): 404 becomes (nil, nil) — the
explicit absent signal — 200 decodes the body, anything else is an error
formatted from the status code. decoded is the json decode of resp.body. -/
def apiGetMachine (resp : HTTPResp) (decoded : Option ApiMachine) :
    Except ClientError (Option ApiMachine) :=
  if resp.status == 404 then .ok none
  else if resp.status != 200 then .error (.unexpectedStatus resp.status)
  else
    match decoded with
    | none => .error .decodeError
    | some m => .ok (some m)

/-- apiclient.Client.DeleteMachine (client.go): 404 and 204 both succeed,
anything else is an error formatted from the status code. -/
def apiDeleteMachine (resp : HTTPResp) : Except ClientError Unit :=
  if resp.status == 404 || resp.status == 204 then .ok ()
  else .error (.unexpectedStatus resp.status)

/-- labapi.Client.doJSON (client.go): any status other than the expected one
is APIError{status, body}; with no out target or an empty payload nothing is
decoded; otherwise the payload is unmarshalled. decoded is the json decode
of resp.body. -/
def labDoJSON (resp : HTTPResp) (expected : Nat) (wantOut : Bool)
    (decoded : Option LabMachine) : Except ClientError (Option LabMachine) :=
  if resp.status != expected then .error (.apiError resp.status resp.body)
  else if !wantOut || resp.body.length == 0 then .ok none
  else
    match decoded with
    | none => .error .decodeError
    | some m => .ok (some m)

/-- labapi.Client.GetMachine (client.go): doJSON expecting 200 into an out
value; an empty payload leaves the zero value. -/
def labGetMachine (resp : HTTPResp) (decoded : Option LabMachine) :
    Except ClientError LabMachine :=
  match labDoJSON resp 200 true decoded with
  | .error e => .error e
  | .ok none => .ok LabMachine.zero
  | .ok (some m) => .ok m

/-- labapi.Client.DeleteMachine (client.go): doJSON expecting 204 with no
out value, so any other status — including 404 — is APIError. -/
def labDeleteMachine (resp : HTTPResp) : Except ClientError Unit :=
  match labDoJSON resp 204 false none with
  | .error e => .error e
  | .ok _ => .ok ()

/-- The Terraform state model of the lab_gear provider's machine resource
(machineModel in the lab_gear provider resource file): every attribute a
concrete value. -/
structure MachineState where
  id : String
  name : String
  kind : String
  make : String
  model : String
  cpu : String
  ram_gb : Int
  storage_tb : Rat
  location : String
  serial : String
  notes : String
deriving DecidableEq, Repr

/-- machineToState of the lab_gear provider resource: copy every API field
into the state model. -/
def machineToState (m : ApiMachine) : MachineState :=
  ⟨m.id, m.name, m.kind, m.make, m.model, m.cpu, m.ram_gb, m.storage_tb,
    m.location, m.serial, m.notes⟩

/-- The Terraform state model of the lab provider's machine resource
(MachineResourceModel in resources/machine.go): optional attributes can be
null. -/
structure LabMachineState where
  id : String
  name : String
  kind : String
  make : String
  model : String
  cpu : Option String
  ram_gb : Option Int
  storage_tb : Option Rat
  location : Option String
  serial : Option String
  notes : Option String
  created_at : String
  updated_at : String
deriving DecidableEq, Repr

/-- modelFromMachine (resources/machine.go): required fields and timestamps
become values, each nil pointer becomes a null attribute. -/
def modelFromMachine (m : LabMachine) : LabMachineState :=
  ⟨m.id, m.name, m.kind, m.make, m.model, m.cpu, m.ram_gb, m.storage_tb,
    m.location, m.serial, m.notes, m.created_at, m.updated_at⟩

/-- Outcome of one controller Read: the tracked state afterwards (none when
RemoveResource dropped it) and whether a diagnostic error was raised. -/
structure ReadOutcome (α : Type) where
  state : Option α
  errored : Bool
deriving DecidableEq, Repr

/-- machineResource.Read of the lab_gear provider: a client error keeps the
state and raises a diagnostic; a nil machine (the client's absent signal for
404) removes the resource from state with no error; otherwise the state is
refreshed from the response. -/
def machineResourceRead (st : MachineState)
    (res : Except ClientError (Option ApiMachine)) : ReadOutcome MachineState :=
  match res with
  | .error _ => ⟨some st, true⟩
  | .ok none => ⟨none, false⟩
  | .ok (some m) => ⟨some (machineToState m), false⟩

/-- MachineResource.Read of the lab provider (resources/machine.go): an
APIError with status 404 removes the resource from state with no error; any
other error keeps the state and raises a diagnostic; success refreshes the
state via modelFromMachine. -/
def labMachineResourceRead (st : LabMachineState)
    (res : Except ClientError LabMachine) : ReadOutcome LabMachineState :=
  match res with
  | .error (.apiError sc _) =>
    if sc == 404 then ⟨none, false⟩
    else ⟨some st, true⟩
  | .error _ => ⟨some st, true⟩
  | .ok m => ⟨some (modelFromMachine m), false⟩

/- Helper lemmas shared by the claim theorems. -/

/-- A body within the size limit decodes to its JSON value: the decoder
cannot consume more bytes than the body has. -/
lemma decodeMachineBody_sub_limit (len vlen : Nat) (b : Machine)
    (h : len ≤ 64 * 1024) :
    decodeMachineBody ⟨len, vlen, some b⟩ = .ok b := by
  have hc : ¬(min vlen len > 64 * 1024) := by omega
  simp only [decodeMachineBody]
  rw [if_neg hc]

lemma hexDigits_length (k : Nat) : ∀ n, (hexDigits k n).length = k := by
  induction k with
  | zero => intro n; rfl
  | succ k ih => intro n; simp [hexDigits, ih]

lemma uuidString_length (n : Nat) : (uuidString n).length = 36 := by
  show (String.mk _).length = 36
  simp [uuidString, String.length, hexDigits_length]

lemma uuidString_ne_empty (n : Nat) : uuidString n ≠ "" := by
  intro h
  have h36 := uuidString_length n
  rw [h] at h36
  simp [String.length] at h36

lemma dbGetByID_append_fresh (s : Store) (m : Machine)
    (h : ∀ x ∈ s, x.id ≠ m.id) : dbGetByID (s ++ [m]) m.id = .ok m := by
  induction s with
  | nil => simp [dbGetByID, List.find?]
  | cons a t ih =>
    have ha : (a.id == m.id) = false := by
      simp only [beq_eq_false_iff_ne, ne_eq]
      exact h a (by simp)
    have ht : ∀ x ∈ t, x.id ≠ m.id := fun x hx => h x (by simp [hx])
    simpa [dbGetByID, List.find?, ha] using ih ht

lemma dbGetByID_ok_id (s : Store) (q : String) (m : Machine)
    (h : dbGetByID s q = .ok m) : m.id = q ∧ m ∈ s := by
  unfold dbGetByID at h
  cases hf : s.find? (fun x => x.id == q) with
  | none => rw [hf] at h; exact absurd h (by simp)
  | some y =>
    rw [hf] at h
    have hy : y = m := by simpa using h
    subst hy
    refine ⟨?_, List.mem_of_find?_eq_some hf⟩
    have := List.find?_some hf
    simpa using this

lemma dbGetByID_map_upd (s : Store) (m : Machine) (q : String) :
    dbGetByID (s.map fun x => if x.id == m.id then setMutable m x else x) q =
      Except.map (fun x => if x.id == m.id then setMutable m x else x)
        (dbGetByID s q) := by
  have hid : ∀ x : Machine,
      (if x.id == m.id then setMutable m x else x).id = x.id := by
    intro x
    by_cases h : (x.id == m.id) = true <;> simp [h, setMutable]
  have hpf : ((fun x : Machine => x.id == q) ∘
      fun x => if x.id == m.id then setMutable m x else x) =
        fun x : Machine => x.id == q := by
    funext x
    simp only [Function.comp_apply]
    rw [hid x]
  unfold dbGetByID
  rw [List.find?_map, hpf]
  cases s.find? (fun x => x.id == q) <;> simp [Except.map]

lemma dbGetByID_countP_pos (s : Store) (q : String) (m : Machine)
    (h : dbGetByID s q = .ok m) : (s.countP (fun x => x.id == q) == 0) = false := by
  obtain ⟨hid, hmem⟩ := dbGetByID_ok_id s q m h
  have hpos : 0 < s.countP (fun x => x.id == q) :=
    List.countP_pos_iff.mpr ⟨m, hmem, by simp [hid]⟩
  simp only [beq_eq_false_iff_ne, ne_eq]
  omega

/-- C3: a request to a protected endpoint whose Authorization header lacks
the exact Bearer space prefix, or whose credential differs from the
configured secret, is answered 401 with the uniform error body by both
observed revisions of the Auth middleware, and the wrapped handler never
runs: the store is returned untouched whatever the handler would do. -/
theorem auth_rejects_without_side_effect (token hdr : String)
    (next : Store → Store × Response) (s : Store)
    (h : hdr.take 7 ≠ "Bearer " ∨ hdr.drop 7 ≠ token) :
    authGateV1 token hdr next s = (s, .rejected 401 unauthorizedBody) ∧
    authGateV2 token hdr next s = (s, .rejected 401 unauthorizedBody) := by
  have h1 : authOkV1 token hdr = false := by
    by_cases hp : hdr.take 7 = "Bearer "
    · rcases h with h | h
      · exact absurd hp h
      · simp [authOkV1, trimBearer, hp, h]
    · simp [authOkV1, hp]
  have h2 : authOkV2 token hdr = false := by
    by_cases hp : hdr.take 7 = "Bearer "
    · rcases h with h | h
      · exact absurd hp h
      · simp [authOkV2, trimBearer, constantTimeCompare, hp, h]
    · simp [authOkV2, hp]
  constructor
  · simp [authGateV1, h1]
  · simp [authGateV2, h2]

/-- Witness for C3 at a concrete rejected header. -/
theorem auth_rejects_without_side_effect_witness :
    authGateV1 "secret" "Bearer wrong" (fun s => (s, ⟨204, .empty⟩)) [] =
      ([], .rejected 401 unauthorizedBody) ∧
    authGateV2 "secret" "Bearer wrong" (fun s => (s, ⟨204, .empty⟩)) [] =
      ([], .rejected 401 unauthorizedBody) :=
  auth_rejects_without_side_effect "secret" "Bearer wrong"
    (fun s => (s, ⟨204, .empty⟩)) [] (Or.inr (by decide))

/-- C4: on a reconciliation Read, a remote 404 makes both machine resource
controllers drop their tracked state entirely without raising an error,
while any other remote failure status raises a reconciliation error and
leaves the tracked state exactly as it was. -/
theorem controller_read_drift (st1 : MachineState) (st2 : LabMachineState)
    (resp : HTTPResp) (d1 : Option ApiMachine) (d2 : Option LabMachine) :
    (resp.status = 404 →
      machineResourceRead st1 (apiGetMachine resp d1) = ⟨none, false⟩ ∧
      labMachineResourceRead st2 (labGetMachine resp d2) = ⟨none, false⟩) ∧
    (resp.status ≠ 404 → resp.status ≠ 200 →
      machineResourceRead st1 (apiGetMachine resp d1) = ⟨some st1, true⟩ ∧
      labMachineResourceRead st2 (labGetMachine resp d2) = ⟨some st2, true⟩) := by
  constructor
  · intro h404
    constructor
    · simp [machineResourceRead, apiGetMachine, h404]
    · simp [labMachineResourceRead, labGetMachine, labDoJSON, h404]
  · intro h404 h200
    constructor
    · simp [machineResourceRead, apiGetMachine, h404, h200]
    · simp [labMachineResourceRead, labGetMachine, labDoJSON, h404, h200]

/-- Witness for C4: a 404 drops state on both controllers, a 500 raises an
error and keeps state on both. -/
theorem controller_read_drift_witness :
    (machineResourceRead ⟨"i", "n", "k", "mk", "md", "c", 1, 0, "l", "s", "t"⟩
        (apiGetMachine ⟨404, "nf"⟩ none) = ⟨none, false⟩ ∧
      labMachineResourceRead
        ⟨"i", "n", "k", "mk", "md", none, none, none, none, none, none, "a", "b"⟩
        (labGetMachine ⟨404, "nf"⟩ none) = ⟨none, false⟩) ∧
    (machineResourceRead ⟨"i", "n", "k", "mk", "md", "c", 1, 0, "l", "s", "t"⟩
        (apiGetMachine ⟨500, "boom"⟩ none) =
          ⟨some ⟨"i", "n", "k", "mk", "md", "c", 1, 0, "l", "s", "t"⟩, true⟩ ∧
      labMachineResourceRead
        ⟨"i", "n", "k", "mk", "md", none, none, none, none, none, none, "a", "b"⟩
        (labGetMachine ⟨500, "boom"⟩ none) =
          ⟨some ⟨"i", "n", "k", "mk", "md", none, none, none, none, none, none,
            "a", "b"⟩, true⟩) :=
  ⟨(controller_read_drift ⟨"i", "n", "k", "mk", "md", "c", 1, 0, "l", "s", "t"⟩
      ⟨"i", "n", "k", "mk", "md", none, none, none, none, none, none, "a", "b"⟩
      ⟨404, "nf"⟩ none none).1 rfl,
    (controller_read_drift ⟨"i", "n", "k", "mk", "md", "c", 1, 0, "l", "s", "t"⟩
      ⟨"i", "n", "k", "mk", "md", none, none, none, none, none, none, "a", "b"⟩
      ⟨500, "boom"⟩ none none).2 (by decide) (by decide)⟩

/-- C5 counterexample: the lab provider's client returns an error — not an
already-satisfied success — when Delete meets a 404, because doJSON expects
204 and wraps every other status in APIError. -/
theorem labapi_delete_notfound_is_error :
    labDeleteMachine ⟨404, "\x7b\"error\":\"machine not found\"\x7d\n"⟩ =
      .error (.apiError 404 "\x7b\"error\":\"machine not found\"\x7d\n") ∧
    labDeleteMachine ⟨404, "\x7b\"error\":\"machine not found\"\x7d\n"⟩ ≠
      .ok () := by
  constructor
  · rfl
  · intro h
    simp [labDeleteMachine, labDoJSON] at h

/-- C5 as amended: in the lab_gear provider's apiclient, a 404 on Read or
Delete is the explicit absent/already-satisfied signal and any other
unexpected status is an error carrying the status code (but not the raw
body); in the lab provider's labapi client, Delete treats every status other
than 204 — including 404 — as an APIError carrying both the status code and
the raw response body. -/
theorem remote_client_status_mapping (resp : HTTPResp) (d1 : Option ApiMachine) :
    (resp.status = 404 →
      apiGetMachine resp d1 = .ok none ∧ apiDeleteMachine resp = .ok ()) ∧
    (resp.status = 204 → apiDeleteMachine resp = .ok ()) ∧
    (resp.status ≠ 404 → resp.status ≠ 200 →
      apiGetMachine resp d1 = .error (.unexpectedStatus resp.status)) ∧
    (resp.status ≠ 404 → resp.status ≠ 204 →
      apiDeleteMachine resp = .error (.unexpectedStatus resp.status)) ∧
    (resp.status ≠ 204 →
      labDeleteMachine resp = .error (.apiError resp.status resp.body)) := by
  refine ⟨?_, ?_, ?_, ?_, ?_⟩
  · intro h
    exact ⟨by simp [apiGetMachine, h], by simp [apiDeleteMachine, h]⟩
  · intro h
    simp [apiDeleteMachine, h]
  · intro h404 h200
    simp [apiGetMachine, h404, h200]
  · intro h404 h204
    simp [apiDeleteMachine, h404, h204]
  · intro h204
    simp [labDeleteMachine, labDoJSON, h204]

/-- Witness for C5 (amended) at concrete responses. -/
theorem remote_client_status_mapping_witness :
    (apiGetMachine ⟨404, "nf"⟩ none = .ok none ∧
      apiDeleteMachine ⟨404, "nf"⟩ = .ok ()) ∧
    apiDeleteMachine ⟨204, ""⟩ = .ok () ∧
    apiGetMachine ⟨500, "boom"⟩ none = .error (.unexpectedStatus 500) ∧
    apiDeleteMachine ⟨500, "boom"⟩ = .error (.unexpectedStatus 500) ∧
    labDeleteMachine ⟨500, "boom"⟩ = .error (.apiError 500 "boom") :=
  ⟨(remote_client_status_mapping ⟨404, "nf"⟩ none).1 rfl,
    (remote_client_status_mapping ⟨204, ""⟩ none).2.1 rfl,
    (remote_client_status_mapping ⟨500, "boom"⟩ none).2.2.1 (by decide) (by decide),
    (remote_client_status_mapping ⟨500, "boom"⟩ none).2.2.2.1 (by decide) (by decide),
    (remote_client_status_mapping ⟨500, "boom"⟩ none).2.2.2.2 (by decide)⟩

/-- C7: listing with a valid kind filter returns exactly the stored records
whose kind equals the filter, listing without a filter returns every stored
record, and in both cases the handler answers 200 with a concrete — possibly
empty, never null — collection while leaving the store untouched. -/
theorem list_filter_exact (s : Store) (K : String) (hK : validKinds K = true) :
    listMachines s K = (s, ⟨200, .records (s.filter fun x => x.kind == K)⟩) ∧
    listMachines s "" = (s, ⟨200, .records s⟩) := by
  have hKne : (K != "") = true := by
    rcases eq_or_ne K "" with h | h
    · rw [h] at hK
      exact absurd hK (by decide)
    · simpa using h
  have hgetD : ∀ k, (dbList s k).getD [] =
      if k != "" then s.filter (fun x => x.kind == k) else s := by
    intro k
    simp only [dbList]
    cases hl : (if k != "" then s.filter (fun x => x.kind == k) else s) with
    | nil => simp
    | cons a t => simp
  constructor
  · simp [listMachines, hKne, hK, hgetD]
  · simp [listMachines, hgetD]

/-- Witness for C7 on a two-record store and the nas filter. -/
theorem list_filter_exact_witness :
    listMachines
      [⟨"a", "n1", "nas", "mk", "md", "", 0, 0, "", "", "", 0, 0⟩,
        ⟨"b", "n2", "sbc", "mk", "md", "", 0, 0, "", "", "", 0, 0⟩] "nas" =
      ([⟨"a", "n1", "nas", "mk", "md", "", 0, 0, "", "", "", 0, 0⟩,
        ⟨"b", "n2", "sbc", "mk", "md", "", 0, 0, "", "", "", 0, 0⟩],
        ⟨200, .records [⟨"a", "n1", "nas", "mk", "md", "", 0, 0, "", "", "", 0, 0⟩]⟩) ∧
    listMachines
      [⟨"a", "n1", "nas", "mk", "md", "", 0, 0, "", "", "", 0, 0⟩,
        ⟨"b", "n2", "sbc", "mk", "md", "", 0, 0, "", "", "", 0, 0⟩] "" =
      ([⟨"a", "n1", "nas", "mk", "md", "", 0, 0, "", "", "", 0, 0⟩,
        ⟨"b", "n2", "sbc", "mk", "md", "", 0, 0, "", "", "", 0, 0⟩],
        ⟨200, .records [⟨"a", "n1", "nas", "mk", "md", "", 0, 0, "", "", "", 0, 0⟩,
          ⟨"b", "n2", "sbc", "mk", "md", "", 0, 0, "", "", "", 0, 0⟩]⟩) := by
  have h := list_filter_exact
    [⟨"a", "n1", "nas", "mk", "md", "", 0, 0, "", "", "", 0, 0⟩,
      ⟨"b", "n2", "sbc", "mk", "md", "", 0, 0, "", "", "", 0, 0⟩] "nas" (by decide)
  exact ⟨by rw [h.1]; rfl, by rw [h.2]⟩

/-- C9: a machine accepted by the record store's create is returned intact —
every field equal, the mutable ones included — by a subsequent getByID with
its identifier. -/
theorem create_getByID_roundtrip (s : Store) (m : Machine) (s2 : Store)
    (h : dbCreate s m = .ok s2) : dbGetByID s2 m.id = .ok m := by
  unfold dbCreate at h
  by_cases hc : s.any (fun x => x.id == m.id)
  · rw [if_pos hc] at h
    exact absurd h (by simp)
  · rw [if_neg hc] at h
    have hs2 : s2 = s ++ [m] := by
      have := h
      simp at this
      exact this.symm
    subst hs2
    apply dbGetByID_append_fresh
    intro x hx hxid
    exact hc (List.any_eq_true.mpr ⟨x, hx, by simp [hxid]⟩)

/-- Witness for C9: a record created into the empty store is read back
unchanged. -/
theorem create_getByID_roundtrip_witness :
    dbGetByID [⟨"a", "n", "nas", "mk", "md", "c", 4, 1, "l", "sn", "t", 5, 5⟩]
      "a" = .ok ⟨"a", "n", "nas", "mk", "md", "c", 4, 1, "l", "sn", "t", 5, 5⟩ :=
  create_getByID_roundtrip []
    ⟨"a", "n", "nas", "mk", "md", "c", 4, 1, "l", "sn", "t", 5, 5⟩
    [⟨"a", "n", "nas", "mk", "md", "c", 4, 1, "l", "sn", "t", 5, 5⟩] rfl

/-- C1: a successful update leaves the target record's id and created_at
exactly as they were — whatever id, created_at or updated_at the request
body carried — refreshes updated_at to the current time, replaces exactly
the mutable fields with the body's values, and touches no other record. -/
theorem update_preserves_identity (s : Store) (id : String)
    (now len vlen : Nat) (b existing m : Machine) (s2 : Store)
    (hget : dbGetByID s id = .ok existing)
    (hlen : len ≤ 64 * 1024)
    (hreq : requiredMissing b = false)
    (hkind : validKinds b.kind = true)
    (hm : m = { b with
      id := id, created_at := existing.created_at, updated_at := now })
    (hs2 : s2 = s.map fun x => if x.id == m.id then setMutable m x else x) :
    updateMachine s id now ⟨len, vlen, some b⟩ = (s2, ⟨200, .record m⟩) ∧
    dbGetByID s2 id = .ok m ∧
    m.id = existing.id ∧
    m.created_at = existing.created_at ∧
    m.updated_at = now ∧
    m.name = b.name ∧ m.kind = b.kind ∧ m.make = b.make ∧ m.model = b.model ∧
    m.cpu = b.cpu ∧ m.ram_gb = b.ram_gb ∧ m.storage_tb = b.storage_tb ∧
    m.location = b.location ∧ m.serial = b.serial ∧ m.notes = b.notes ∧
    (∀ q, q ≠ id → dbGetByID s2 q = dbGetByID s q) := by
  obtain ⟨hexid, -⟩ := dbGetByID_ok_id s id existing hget
  have hcount := dbGetByID_countP_pos s id existing hget
  have hmid : m.id = id := by rw [hm]
  have hupd : dbUpdate s m = .ok s2 := by
    unfold dbUpdate
    rw [hmid, hcount]
    simp [hs2, hmid]
  have hrun : updateMachine s id now ⟨len, vlen, some b⟩ =
      (s2, ⟨200, .record m⟩) := by
    unfold updateMachine
    rw [hget, decodeMachineBody_sub_limit len vlen b hlen]
    simp only [hreq, hkind, Bool.false_eq_true, if_false, Bool.not_true,
      Bool.true_eq_false]
    rw [← hm, hupd]
  refine ⟨hrun, ?_, by rw [hm]; exact hexid.symm, by rw [hm], by rw [hm],
    by rw [hm], by rw [hm], by rw [hm], by rw [hm], by rw [hm], by rw [hm],
    by rw [hm], by rw [hm], by rw [hm], by rw [hm], ?_⟩
  · rw [hs2, dbGetByID_map_upd, hmid, hget]
    have hset : setMutable m existing = m := by
      cases existing with
      | mk eid en ek emk emd ec er est el esn ent eca eua =>
        cases b with
        | mk bid bn bk bmk bmd bc br bst bl bsn bnt bca bua =>
          simp only [setMutable, hm]
          simp_all
    simp [Except.map, hexid, hset]
  · intro q hq
    rw [hs2, dbGetByID_map_upd]
    cases hf : dbGetByID s q with
    | error e => simp [Except.map]
    | ok y =>
      obtain ⟨hyid, -⟩ := dbGetByID_ok_id s q y hf
      have hne : (y.id == m.id) = false := by
        rw [hyid, hmid]
        simpa using hq
      simp [Except.map, hne]

/-- Witness for C1: update a one-record store; id and created_at survive,
updated_at is refreshed, the mutable fields take the body's values. -/
theorem update_preserves_identity_witness :
    updateMachine [⟨"a", "n", "nas", "mk", "md", "c", 4, 1, "l", "sn", "t", 5, 5⟩]
      "a" 9 ⟨100, 100, some ⟨"zzz", "n2", "sbc", "mk2", "md2", "c2", 8, 2,
        "l2", "sn2", "t2", 77, 88⟩⟩ =
      ([⟨"a", "n2", "sbc", "mk2", "md2", "c2", 8, 2, "l2", "sn2", "t2", 5, 9⟩],
        ⟨200, .record ⟨"a", "n2", "sbc", "mk2", "md2", "c2", 8, 2, "l2", "sn2",
          "t2", 5, 9⟩⟩) ∧
    dbGetByID [⟨"a", "n2", "sbc", "mk2", "md2", "c2", 8, 2, "l2", "sn2", "t2",
      5, 9⟩] "a" =
      .ok ⟨"a", "n2", "sbc", "mk2", "md2", "c2", 8, 2, "l2", "sn2", "t2", 5, 9⟩ := by
  have h := update_preserves_identity
    [⟨"a", "n", "nas", "mk", "md", "c", 4, 1, "l", "sn", "t", 5, 5⟩] "a" 9
    100 100
    ⟨"zzz", "n2", "sbc", "mk2", "md2", "c2", 8, 2, "l2", "sn2", "t2", 77, 88⟩
    ⟨"a", "n", "nas", "mk", "md", "c", 4, 1, "l", "sn", "t", 5, 5⟩
    ⟨"a", "n2", "sbc", "mk2", "md2", "c2", 8, 2, "l2", "sn2", "t2", 5, 9⟩
    [⟨"a", "n2", "sbc", "mk2", "md2", "c2", 8, 2, "l2", "sn2", "t2", 5, 9⟩]
    rfl (by omega) (by decide) (by decide) rfl rfl
  exact ⟨h.1, h.2.1⟩

/-- C2: a create whose decoded body misses a required field or carries an
out-of-enumeration kind is answered 400 with the store untouched; otherwise
the server mints a non-empty identifier and both timestamps (equal at
creation), appends the record to the store, and answers 201 echoing the full
stored record. -/
theorem create_validates_and_mints (s : Store)
    (now entropy len vlen : Nat) (b m : Machine)
    (hlen : len ≤ 64 * 1024)
    (hm : m = { b with
      id := uuidString entropy, created_at := now, updated_at := now }) :
    (requiredMissing b = true →
      createMachine s now entropy ⟨len, vlen, some b⟩ =
        (s, ⟨400, .errMsg "name, kind, make, and model are required"⟩)) ∧
    (requiredMissing b = false → validKinds b.kind = false →
      createMachine s now entropy ⟨len, vlen, some b⟩ =
        (s, ⟨400, .errMsg "invalid kind"⟩)) ∧
    (requiredMissing b = false → validKinds b.kind = true →
      (∀ x ∈ s, x.id ≠ uuidString entropy) →
      createMachine s now entropy ⟨len, vlen, some b⟩ = (s ++ [m], ⟨201, .record m⟩) ∧
      m.id ≠ "" ∧
      m.created_at = m.updated_at ∧
      dbGetByID (s ++ [m]) m.id = .ok m) := by
  have hdec : decodeMachineBody ⟨len, vlen, some b⟩ = .ok b :=
    decodeMachineBody_sub_limit len vlen b hlen
  refine ⟨?_, ?_, ?_⟩
  · intro hreq
    unfold createMachine
    rw [hdec]
    simp [hreq]
  · intro hreq hkind
    unfold createMachine
    rw [hdec]
    simp [hreq, hkind]
  · intro hreq hkind hfresh
    have hmid : m.id = uuidString entropy := by rw [hm]
    have hins : dbCreate s m = .ok (s ++ [m]) := by
      unfold dbCreate
      rw [if_neg]
      intro hany
      obtain ⟨x, hx, hxid⟩ := List.any_eq_true.mp hany
      exact hfresh x hx (by rw [← hmid]; exact eq_of_beq hxid)
    refine ⟨?_, by rw [hmid]; exact uuidString_ne_empty entropy,
      by rw [hm], ?_⟩
    · unfold createMachine
      rw [hdec]
      simp only [hreq, hkind, Bool.false_eq_true, if_false, Bool.not_true,
        Bool.true_eq_false]
      rw [← hm, hins]
    · apply dbGetByID_append_fresh
      intro x hx
      rw [hmid]
      exact hfresh x hx

/-- Witness for C2: a rejected body missing its make, a rejected body with
kind toaster, and an accepted creation into the empty store. -/
theorem create_validates_and_mints_witness :
    createMachine [] 7 3 ⟨50, 50, some ⟨"", "n", "nas", "", "md", "", 0, 0, "", "",
      "", 0, 0⟩⟩ =
      ([], ⟨400, .errMsg "name, kind, make, and model are required"⟩) ∧
    createMachine [] 7 3 ⟨50, 50, some ⟨"", "n", "toaster", "mk", "md", "", 0, 0,
      "", "", "", 0, 0⟩⟩ = ([], ⟨400, .errMsg "invalid kind"⟩) ∧
    (createMachine [] 7 3 ⟨50, 50, some ⟨"", "n", "nas", "mk", "md", "", 0, 0, "",
      "", "", 0, 0⟩⟩ =
      ([{ id := uuidString 3, name := "n", kind := "nas", make := "mk",
          model := "md", cpu := "", ram_gb := 0, storage_tb := 0,
          location := "", serial := "", notes := "", created_at := 7,
          updated_at := 7 }],
        ⟨201, .record {
          id := uuidString 3, name := "n", kind := "nas", make := "mk",
          model := "md", cpu := "", ram_gb := 0, storage_tb := 0,
          location := "", serial := "", notes := "", created_at := 7,
          updated_at := 7 }⟩) ∧
      uuidString 3 ≠ "") := by
  refine ⟨?_, ?_, ?_, ?_⟩
  · exact (create_validates_and_mints [] 7 3 50 50
      ⟨"", "n", "nas", "", "md", "", 0, 0, "", "", "", 0, 0⟩
      { (⟨"", "n", "nas", "", "md", "", 0, 0, "", "", "", 0, 0⟩ : Machine) with
        id := uuidString 3, created_at := 7, updated_at := 7 }
      (by omega) rfl).1 (by decide)
  · exact (create_validates_and_mints [] 7 3 50 50
      ⟨"", "n", "toaster", "mk", "md", "", 0, 0, "", "", "", 0, 0⟩
      { (⟨"", "n", "toaster", "mk", "md", "", 0, 0, "", "", "", 0, 0⟩ : Machine) with
        id := uuidString 3, created_at := 7, updated_at := 7 }
      (by omega) rfl).2.1 (by decide) (by decide)
  · exact ((create_validates_and_mints [] 7 3 50 50
      ⟨"", "n", "nas", "mk", "md", "", 0, 0, "", "", "", 0, 0⟩
      { (⟨"", "n", "nas", "mk", "md", "", 0, 0, "", "", "", 0, 0⟩ : Machine) with
        id := uuidString 3, created_at := 7, updated_at := 7 }
      (by omega) rfl).2.2 (by decide) (by decide) (by simp)).1
  · exact ((create_validates_and_mints [] 7 3 50 50
      ⟨"", "n", "nas", "mk", "md", "", 0, 0, "", "", "", 0, 0⟩
      { (⟨"", "n", "nas", "mk", "md", "", 0, 0, "", "", "", 0, 0⟩ : Machine) with
        id := uuidString 3, created_at := 7, updated_at := 7 }
      (by omega) rfl).2.2 (by decide) (by decide) (by simp)).2.1

/-- C8: an update addressed to an unknown identifier is answered 404 before
the body is even considered — for every body, oversized, undecodable or
invalid alike — and when the target does exist the replacement body is
validated by exactly the rules Create applies: the update answers 400
precisely when a create of the same body would. -/
theorem update_notfound_precedence (s s3 : Store) (id : String)
    (now u : Nat) (r : ReqBody) (existing : Machine) :
    (dbGetByID s id = .error .noRows →
      updateMachine s id now r = (s, ⟨404, .errMsg "machine not found"⟩)) ∧
    (dbGetByID s id = .ok existing →
      ((updateMachine s id now r).2.status = 400 ↔
        (createMachine s3 now u r).2.status = 400)) := by
  constructor
  · intro h
    unfold updateMachine
    rw [h]
  · intro h
    unfold updateMachine createMachine
    rw [h]
    cases hd : decodeMachineBody r with
    | tooLarge => simp
    | badJSON => simp
    | ok req =>
      by_cases hreq : requiredMissing req = true
      · simp [hreq]
      · by_cases hk : validKinds req.kind = true
        · simp only [hreq, hk, Bool.not_true, if_false, Bool.false_eq_true,
            Bool.true_eq_false]
          cases dbUpdate s { req with
              id := id, created_at := existing.created_at,
              updated_at := now } <;>
            cases dbCreate s3 { req with
              id := uuidString u, created_at := now, updated_at := now } <;>
            simp
        · simp only [Bool.not_eq_true] at hreq hk
          simp [hreq, hk]

/-- Witness for C8: an unknown id with an undecodable body yields 404, and
for an existing target an invalid-kind body makes update and create agree on
400. -/
theorem update_notfound_precedence_witness :
    updateMachine [] "missing" 0 ⟨70000, 70000, none⟩ =
      ([], ⟨404, .errMsg "machine not found"⟩) ∧
    ((updateMachine [⟨"a", "n", "nas", "mk", "md", "", 0, 0, "", "", "", 0, 0⟩]
        "a" 0 ⟨50, 50, some ⟨"", "n", "toaster", "mk", "md", "", 0, 0, "", "", "",
          0, 0⟩⟩).2.status = 400 ↔
      (createMachine [] 0 0 ⟨50, 50, some ⟨"", "n", "toaster", "mk", "md", "", 0,
        0, "", "", "", 0, 0⟩⟩).2.status = 400) :=
  ⟨(update_notfound_precedence [] [] "missing" 0 0 ⟨70000, 70000, none⟩
      ⟨"", "", "", "", "", "", 0, 0, "", "", "", 0, 0⟩).1 rfl,
    (update_notfound_precedence
      [⟨"a", "n", "nas", "mk", "md", "", 0, 0, "", "", "", 0, 0⟩] [] "a" 0 0
      ⟨50, 50, some ⟨"", "n", "toaster", "mk", "md", "", 0, 0, "", "", "", 0, 0⟩⟩
      ⟨"a", "n", "nas", "mk", "md", "", 0, 0, "", "", "", 0, 0⟩).2 rfl⟩

/-- C6 counterexample: a PUT addressed to an identifier absent from the
store whose body carries the out-of-enumeration kind toaster is answered
404, not the 400 the claim requires for every request carrying an invalid
kind. -/
theorem invalid_kind_update_unknown_id_404 :
    (updateMachine [] "missing" 0 ⟨100, 100, some ⟨"", "n", "toaster", "mk", "md",
      "", 0, 0, "", "", "", 0, 0⟩⟩).2.status = 404 ∧
    (updateMachine [] "missing" 0 ⟨100, 100, some ⟨"", "n", "toaster", "mk", "md",
      "", 0, 0, "", "", "", 0, 0⟩⟩).2.status ≠ 400 := by
  constructor
  · rfl
  · decide

/-- C6 as amended: an out-of-enumeration kind in a decodable, size-bounded
create body, in such an update body whose target exists, or in a non-empty
list filter, is always answered 400 with the store untouched — never 500 and
never a silently-empty success; on update, an unknown identifier takes
precedence and is answered 404. -/
theorem invalid_kind_is_client_error (s s2 : Store) (id K : String)
    (now u len vlen : Nat) (b existing : Machine)
    (hlen : len ≤ 64 * 1024) (hbad : validKinds b.kind = false) :
    ((createMachine s now u ⟨len, vlen, some b⟩).1 = s ∧
      (createMachine s now u ⟨len, vlen, some b⟩).2.status = 400) ∧
    (dbGetByID s2 id = .ok existing →
      (updateMachine s2 id now ⟨len, vlen, some b⟩).1 = s2 ∧
      (updateMachine s2 id now ⟨len, vlen, some b⟩).2.status = 400) ∧
    (K ≠ "" → validKinds K = false →
      listMachines s K = (s, ⟨400, .errMsg "invalid kind"⟩)) := by
  have hdec : decodeMachineBody ⟨len, vlen, some b⟩ = .ok b :=
    decodeMachineBody_sub_limit len vlen b hlen
  refine ⟨?_, ?_, ?_⟩
  · unfold createMachine
    rw [hdec]
    by_cases hreq : requiredMissing b = true
    · simp [hreq]
    · simp only [Bool.not_eq_true] at hreq
      simp [hreq, hbad]
  · intro hget
    unfold updateMachine
    rw [hget, hdec]
    by_cases hreq : requiredMissing b = true
    · simp [hreq]
    · simp only [Bool.not_eq_true] at hreq
      simp [hreq, hbad]
  · intro hKne hKbad
    unfold listMachines
    rw [if_pos]
    simp [hKbad, hKne]

/-- Witness for C6 (amended): kind toaster is rejected 400 on create, on an
update whose target exists, and as a list filter. -/
theorem invalid_kind_is_client_error_witness :
    ((createMachine [] 0 0 ⟨60, 60, some ⟨"", "n", "toaster", "mk", "md", "", 0, 0,
      "", "", "", 0, 0⟩⟩).1 = [] ∧
      (createMachine [] 0 0 ⟨60, 60, some ⟨"", "n", "toaster", "mk", "md", "", 0,
        0, "", "", "", 0, 0⟩⟩).2.status = 400) ∧
    ((updateMachine [⟨"a", "n", "nas", "mk", "md", "", 0, 0, "", "", "", 0, 0⟩]
        "a" 0 ⟨60, 60, some ⟨"", "n", "toaster", "mk", "md", "", 0, 0, "", "", "",
          0, 0⟩⟩).1 =
        [⟨"a", "n", "nas", "mk", "md", "", 0, 0, "", "", "", 0, 0⟩] ∧
      (updateMachine [⟨"a", "n", "nas", "mk", "md", "", 0, 0, "", "", "", 0,
        0⟩] "a" 0 ⟨60, 60, some ⟨"", "n", "toaster", "mk", "md", "", 0, 0, "", "",
          "", 0, 0⟩⟩).2.status = 400) ∧
    listMachines [] "toaster" = ([], ⟨400, .errMsg "invalid kind"⟩) := by
  have h := invalid_kind_is_client_error []
    [⟨"a", "n", "nas", "mk", "md", "", 0, 0, "", "", "", 0, 0⟩] "a" "toaster"
    0 0 60 60 ⟨"", "n", "toaster", "mk", "md", "", 0, 0, "", "", "", 0, 0⟩
    ⟨"a", "n", "nas", "mk", "md", "", 0, 0, "", "", "", 0, 0⟩
    (by omega) (by decide)
  exact ⟨h.1, h.2.1 rfl, h.2.2 (by decide) (by decide)⟩

/-- C10 counterexample: a 70000-byte create body whose first JSON value
completes after 50 bytes decodes successfully — json.Decoder stops at the
end of the first value and never reads the bytes that would trip
http.MaxBytesReader — so the handler answers 201 and stores the record, not
the 413 with unchanged store the claim requires for every body over 64 KiB;
an oversized PUT to an unknown identifier likewise answers 404, not 413. -/
theorem oversized_body_not_always_413 :
    (createMachine [] 7 3 ⟨70000, 50, some ⟨"", "n", "nas", "mk", "md", "", 0,
      0, "", "", "", 0, 0⟩⟩).2.status = 201 ∧
    ((createMachine [] 7 3 ⟨70000, 50, some ⟨"", "n", "nas", "mk", "md", "",
      0, 0, "", "", "", 0, 0⟩⟩).1).length = 1 ∧
    (createMachine [] 7 3 ⟨70000, 50, some ⟨"", "n", "nas", "mk", "md", "", 0,
      0, "", "", "", 0, 0⟩⟩).2.status ≠ 413 ∧
    (updateMachine [] "missing" 0 ⟨65537, 65537, none⟩).2.status = 404 := by
  refine ⟨rfl, rfl, by decide, rfl⟩

/-- C10 as amended: a create or update body is answered 413 with the message
request body too large — the store left unchanged — exactly when its JSON
decode must consume more than 64*1024 bytes; when the first JSON value
completes within the limit the size guard never fires and the body decodes
normally whatever its total length; and on update an unknown identifier is
answered 404 regardless of body size. -/
theorem oversized_body_413 (s : Store) (id : String) (now u : Nat)
    (r : ReqBody) (existing b : Machine) :
    (min r.valueLen r.byteLen > 64 * 1024 →
      createMachine s now u r = (s, ⟨413, .errMsg "request body too large"⟩) ∧
      (dbGetByID s id = .ok existing →
        updateMachine s id now r =
          (s, ⟨413, .errMsg "request body too large"⟩))) ∧
    (min r.valueLen r.byteLen ≤ 64 * 1024 → r.json = some b →
      decodeMachineBody r = .ok b) ∧
    (dbGetByID s id = .error .noRows →
      updateMachine s id now r = (s, ⟨404, .errMsg "machine not found"⟩)) := by
  refine ⟨?_, ?_, ?_⟩
  · intro hbig
    have hdec : decodeMachineBody r = .tooLarge := by
      simp only [decodeMachineBody]
      rw [if_pos hbig]
    refine ⟨by unfold createMachine; rw [hdec], ?_⟩
    intro hget
    unfold updateMachine
    rw [hget, hdec]
  · intro hsmall hjson
    simp only [decodeMachineBody]
    rw [if_neg (by omega), hjson]
  · intro hget
    unfold updateMachine
    rw [hget]

/-- Witness for C10 (amended): a body whose decode needs 70001 bytes is
answered 413 on create and on an update whose target exists, a 70000-byte
body whose value completes at 50 bytes decodes to its machine, and an
oversized update to an unknown target is answered 404. -/
theorem oversized_body_413_witness :
    (createMachine [] 0 0 ⟨70001, 70001, none⟩ =
      ([], ⟨413, .errMsg "request body too large"⟩) ∧
      updateMachine [⟨"a", "n", "nas", "mk", "md", "", 0, 0, "", "", "", 0, 0⟩]
        "a" 0 ⟨70001, 70001, none⟩ =
        ([⟨"a", "n", "nas", "mk", "md", "", 0, 0, "", "", "", 0, 0⟩],
          ⟨413, .errMsg "request body too large"⟩)) ∧
    decodeMachineBody ⟨70000, 50, some ⟨"", "n", "nas", "mk", "md", "", 0, 0,
      "", "", "", 0, 0⟩⟩ =
      .ok ⟨"", "n", "nas", "mk", "md", "", 0, 0, "", "", "", 0, 0⟩ ∧
    updateMachine [] "other" 0 ⟨65537, 65537, none⟩ =
      ([], ⟨404, .errMsg "machine not found"⟩) :=
  ⟨⟨((oversized_body_413 [] "a" 0 0 ⟨70001, 70001, none⟩
      ⟨"", "", "", "", "", "", 0, 0, "", "", "", 0, 0⟩
      ⟨"", "", "", "", "", "", 0, 0, "", "", "", 0, 0⟩).1 (by decide)).1,
    ((oversized_body_413 [⟨"a", "n", "nas", "mk", "md", "", 0, 0, "", "", "",
        0, 0⟩] "a" 0 0 ⟨70001, 70001, none⟩
      ⟨"a", "n", "nas", "mk", "md", "", 0, 0, "", "", "", 0, 0⟩
      ⟨"", "", "", "", "", "", 0, 0, "", "", "", 0, 0⟩).1 (by decide)).2 rfl⟩,
    (oversized_body_413 [] "other" 0 0 ⟨70000, 50, some
        ⟨"", "n", "nas", "mk", "md", "", 0, 0, "", "", "", 0, 0⟩⟩
      ⟨"", "", "", "", "", "", 0, 0, "", "", "", 0, 0⟩
      ⟨"", "n", "nas", "mk", "md", "", 0, 0, "", "", "", 0, 0⟩).2.1
      (by decide) rfl,
    (oversized_body_413 [] "other" 0 0 ⟨65537, 65537, none⟩
      ⟨"", "", "", "", "", "", 0, 0, "", "", "", 0, 0⟩
      ⟨"", "", "", "", "", "", 0, 0, "", "", "", 0, 0⟩).2.2 rfl⟩
